import Mathlib

/-!
Verification of the real-time notification client reconciliation subsystem
of the GEN-AI todo application.

Shallow embedding of:
- `src/Module2/Frontend/src/contexts/NotificationContext.tsx`
  (notification record shape, WebSocket message handler, refresh and
  mark-read operations), and
- `src/Module2/Frontend/src/hooks/useWebSocket.ts`
  (connect guard, frame parsing, reconnect backoff state machine).

React `useState` state is modelled as explicit state records; the
asynchronous HTTP fetches are modelled by passing their result in as an
`Option` value (`none` = the request failed and the `catch` block only
logged). JavaScript numbers holding the unread counter are modelled as
`Int`, so `Math.max(0, prev - 1)` keeps its exact JS semantics.
-/

namespace GenAI

/-- Notification record, from the `Notification` interface in
`NotificationContext.tsx` lines 6-18. String-typed timestamp fields are kept
as strings; optional fields are `Option`. -/
structure Notification where
  id : Nat
  user_id : Nat
  todo_id : Option Nat
  actor_id : Nat
  action_type : String
  message : String
  is_read : Bool
  delivered_at : Option String
  created_at : String
  deriving Repr, DecidableEq

/-- The client-local reconciliation state of `NotificationProvider`:
the `notifications` list (`useState<Notification[]>([])`) and the
`unreadCount` counter (`useState(0)`), `NotificationContext.tsx`
lines 36-37. -/
structure ClientState where
  notifications : List Notification
  unreadCount : Int
  deriving Repr, DecidableEq

/-- Inbound WebSocket messages, the `type` strings switched on in the
handler at `NotificationContext.tsx` lines 113-167. `unknown ty` stands for
a well-formed frame whose `type` string is none of the six recognized
cases (the `default` branch). -/
inductive WsMessage where
  | connection_ack
  | new_notification (record : Notification)
  | notification_marked_read (notification_id : Nat)
  | notifications_all_marked_read
  | mark_read_ack
  | pong
  | unknown (ty : String)
  deriving Repr, DecidableEq

/-- `fetchedNotifications.filter((n) => !n.is_read).length`,
`NotificationContext.tsx` line 61. -/
def countUnread (l : List Notification) : Nat :=
  (l.filter fun n => !n.is_read).length

/-- `prev.map(n => n.id === data.notification_id ? { ...n, is_read: true } : n)`,
`NotificationContext.tsx` lines 138-142. -/
def markReadById (nid : Nat) (l : List Notification) : List Notification :=
  l.map fun n => if n.id = nid then { n with is_read := true } else n

/-- `prev.map(n => ({ ...n, is_read: true }))`, `NotificationContext.tsx`
lines 150-152. -/
def setAllRead (l : List Notification) : List Notification :=
  l.map fun n => { n with is_read := true }

/-- `refreshNotifications`, `NotificationContext.tsx` lines 48-66.
`fetched = none` models the GET failing (the `catch` block only logs, so
the state is left unchanged); when unauthenticated the list and counter
are cleared without any request. -/
def refreshNotifications (isAuthenticated : Bool)
    (fetched : Option (List Notification)) (st : ClientState) : ClientState :=
  if !isAuthenticated then { notifications := [], unreadCount := 0 }
  else
    match fetched with
    | some l => { notifications := l, unreadCount := (countUnread l : Int) }
    | none => st

/-- `refreshUnreadCount`, `NotificationContext.tsx` lines 69-81. The
unread-count endpoint returns a count, modelled as a `Nat`; `none` models
the GET failing (the `catch` block only logs). -/
def refreshUnreadCount (isAuthenticated : Bool)
    (serverCount : Option Nat) (st : ClientState) : ClientState :=
  if !isAuthenticated then { st with unreadCount := 0 }
  else
    match serverCount with
    | some c => { st with unreadCount := (c : Int) }
    | none => st

/-- The WebSocket message handler effect on client state: the `switch` in
the `useEffect` at `NotificationContext.tsx` lines 108-168.
- `connection_ack` calls `refreshNotifications` (line 117);
- `new_notification` prepends `data` and increments the counter,
  unconditionally (lines 123-124);
- `notification_marked_read` maps `is_read := true` over entries with the
  given id and sets the counter to `Math.max(0, prev - 1)`,
  unconditionally (lines 138-144);
- `notifications_all_marked_read` marks every entry read and zeroes the
  counter (lines 150-154);
- `mark_read_ack`, `pong` and the `default` branch only log. -/
def handleMessage (isAuthenticated : Bool)
    (fetched : Option (List Notification)) (st : ClientState) :
    WsMessage → ClientState
  | .connection_ack => refreshNotifications isAuthenticated fetched st
  | .new_notification r =>
      { notifications := r :: st.notifications,
        unreadCount := st.unreadCount + 1 }
  | .notification_marked_read nid =>
      { notifications := markReadById nid st.notifications,
        unreadCount := max 0 (st.unreadCount - 1) }
  | .notifications_all_marked_read =>
      { notifications := setAllRead st.notifications,
        unreadCount := 0 }
  | .mark_read_ack => st
  | .pong => st
  | .unknown _ => st

/-- Processing a whole inbound message sequence, one message fully handled
before the next (the per-connection event-loop discipline). -/
def runMessages (isAuthenticated : Bool)
    (fetched : Option (List Notification)) (st : ClientState)
    (msgs : List WsMessage) : ClientState :=
  msgs.foldl (handleMessage isAuthenticated fetched) st

/-- The reconciliation invariant claimed by the spec: the unread counter
equals the number of non-read entries in the local list. -/
def UnreadInv (st : ClientState) : Prop :=
  st.unreadCount = (countUnread st.notifications : Int)

instance (st : ClientState) : Decidable (UnreadInv st) := by
  unfold UnreadInv; infer_instance

/-- Sample unread notification with id 1, used in concrete counterexamples. -/
def r1ex : Notification :=
  { id := 1, user_id := 10, todo_id := some 5, actor_id := 11,
    action_type := "updated", message := "", is_read := false,
    delivered_at := none, created_at := "" }

/-- Sample unread notification with id 2, used in concrete counterexamples. -/
def r2ex : Notification :=
  { id := 2, user_id := 10, todo_id := none, actor_id := 12,
    action_type := "created", message := "", is_read := false,
    delivered_at := none, created_at := "" }

/-- The empty initial client state (`useState<Notification[]>([])`,
`useState(0)`). -/
def st0 : ClientState := { notifications := [], unreadCount := 0 }

/-- Number of local entries with the given id that are still unread: the
entries a `notification_marked_read{nid}` message actually flips. -/
def countMatchUnread (nid : Nat) (l : List Notification) : Nat :=
  (l.filter fun n => n.id = nid && !n.is_read).length

/-- Marking every entry read leaves no unread entry. -/
theorem countUnread_setAllRead (l : List Notification) :
    countUnread (setAllRead l) = 0 := by
  induction l with
  | nil => rfl
  | cons n l ih => simp [setAllRead, countUnread, List.filter] at ih ⊢

/-- Marking every entry read is idempotent on the list. -/
theorem setAllRead_idem (l : List Notification) :
    setAllRead (setAllRead l) = setAllRead l := by
  induction l with
  | nil => rfl
  | cons n l ih => simp [setAllRead, List.map] at ih ⊢

/-- Every entry of `setAllRead l` is read. -/
theorem mem_setAllRead_is_read (l : List Notification) :
    ∀ n ∈ setAllRead l, n.is_read = true := by
  intro n hn
  simp only [setAllRead, List.mem_map] at hn
  obtain ⟨m, _, rfl⟩ := hn
  rfl

/-- Accounting for `markReadById`: the unread entries of `l` split into
those it flips (id = nid) and those that stay unread (id ≠ nid). -/
theorem countUnread_markReadById (nid : Nat) (l : List Notification) :
    countUnread l = countUnread (markReadById nid l) + countMatchUnread nid l := by
  induction l with
  | nil => rfl
  | cons n l ih =>
    by_cases hid : n.id = nid <;> by_cases hr : n.is_read <;>
      simp [countUnread, markReadById, countMatchUnread, List.filter, hid, hr] at ih ⊢ <;>
      omega

/-- If every local entry with the given id is already read, `markReadById`
leaves the list unchanged. -/
theorem markReadById_eq_self (nid : Nat) (l : List Notification)
    (h : ∀ n ∈ l, n.id = nid → n.is_read = true) :
    markReadById nid l = l := by
  induction l with
  | nil => rfl
  | cons n l ih =>
    have hn := h n (List.mem_cons_self n l)
    have htl : markReadById nid l = l :=
      ih fun m hm => h m (List.mem_cons_of_mem n hm)
    by_cases hid : n.id = nid
    · have := hn hid
      cases n
      simp_all [markReadById, List.map]
    · simp [markReadById, List.map, hid] at htl ⊢
      exact htl

/-- After `markReadById nid`, every entry with that id is read. -/
theorem markReadById_marks (nid : Nat) (l : List Notification) :
    ∀ n ∈ markReadById nid l, n.id = nid → n.is_read = true := by
  intro n hn
  simp only [markReadById, List.mem_map] at hn
  obtain ⟨m, _, rfl⟩ := hn
  by_cases hid : m.id = nid <;> intro h <;> simp_all

/-- Prepending an unread record adds one unread entry. -/
theorem countUnread_cons_unread (r : Notification) (l : List Notification)
    (h : r.is_read = false) : countUnread (r :: l) = countUnread l + 1 := by
  simp [countUnread, List.filter, h]

/-- A message is admissible for the unread-count invariant when a
`new_notification` carries an unread record and a
`notification_marked_read` targets exactly one currently-unread local
entry; every other message kind is unconditionally admissible. -/
def Admissible (st : ClientState) : WsMessage → Prop
  | .new_notification r => r.is_read = false
  | .notification_marked_read nid => countMatchUnread nid st.notifications = 1
  | _ => True

/-- `const maxReconnectAttempts = 5`, `useWebSocket.ts` line 24. -/
def maxReconnectAttempts : Nat := 5

/-- The reconnect-relevant state of `useWebSocket`: the `isConnected`
state, the `reconnectAttempts` ref and the pending `setTimeout` delay
(in milliseconds; `none` when no retry timer is armed),
`useWebSocket.ts` lines 19-25. -/
structure WsConnState where
  isConnected : Bool
  reconnectAttempts : Nat
  pendingRetryDelayMs : Option Nat
  deriving Repr, DecidableEq

/-- Transport-level events driving the reconnect state machine. -/
inductive WsEvent where
  | transportClose
  | retryTimerFires
  | transportOpen
  deriving Repr, DecidableEq

/-- One step of the reconnect state machine, from `useWebSocket.ts`:
- `transportClose` is the `onclose` handler (lines 58-72):
  `setIsConnected(false)`, then if authenticated and
  `reconnectAttempts < maxReconnectAttempts` arm a timer with delay
  `Math.pow(2, reconnectAttempts) * 1000` ms;
- `retryTimerFires` is the `setTimeout` callback (lines 67-70):
  increments `reconnectAttempts` and calls `connect()` (a no-op on state
  when the timer is not armed);
- `transportOpen` is the `onopen` handler (lines 42-46):
  `setIsConnected(true)` and `reconnectAttempts = 0` (any armed timer is
  irrelevant to a fresh connection and is modelled as cleared). -/
def wsStep (isAuthenticated : Bool) (st : WsConnState) : WsEvent → WsConnState
  | .transportClose =>
      if isAuthenticated ∧ st.reconnectAttempts < maxReconnectAttempts then
        { st with isConnected := false,
                  pendingRetryDelayMs := some (2 ^ st.reconnectAttempts * 1000) }
      else
        { st with isConnected := false }
  | .retryTimerFires =>
      match st.pendingRetryDelayMs with
      | some _ =>
          { st with pendingRetryDelayMs := none,
                    reconnectAttempts := st.reconnectAttempts + 1 }
      | none => st
  | .transportOpen =>
      { st with isConnected := true, reconnectAttempts := 0,
                pendingRetryDelayMs := none }

/-- Running a list of transport events through the reconnect machine. -/
def runWs (isAuthenticated : Bool) (st : WsConnState)
    (evs : List WsEvent) : WsConnState :=
  evs.foldl (wsStep isAuthenticated) st

/-- Reachability invariant of the reconnect machine: the attempt counter
never exceeds the cap, and a timer is armed only below the cap. -/
def WsInv (st : WsConnState) : Prop :=
  st.reconnectAttempts ≤ maxReconnectAttempts ∧
  (st.pendingRetryDelayMs ≠ none →
    st.reconnectAttempts < maxReconnectAttempts)

instance (st : WsConnState) : Decidable (WsInv st) := by
  unfold WsInv; infer_instance

/-- From an exhausted, disconnected, timer-free state, any further close
or timer event leaves the state fixed. -/
theorem wsStep_exhausted_fixed (isAuthenticated : Bool) (st : WsConnState)
    (hmax : st.reconnectAttempts = maxReconnectAttempts)
    (hpend : st.pendingRetryDelayMs = none)
    (hconn : st.isConnected = false)
    (e : WsEvent) (he : e ≠ .transportOpen) :
    wsStep isAuthenticated st e = st := by
  cases e with
  | transportClose =>
    have : ¬ (isAuthenticated ∧ st.reconnectAttempts < maxReconnectAttempts) := by
      rw [hmax]; omega
    simp only [wsStep, if_neg this]
    cases st
    simp_all
  | retryTimerFires => simp only [wsStep, hpend]
  | transportOpen => exact absurd rfl he

/-- C1 as stated is false: the concrete sequence
`[new r1, new r2, marked_read 1, marked_read 1]` (a duplicated
`notification_marked_read`, which the claim explicitly allows) leaves the
counter at 0 while one entry (id 2) is still unread. -/
theorem C1_counterexample :
    ¬ UnreadInv (runMessages true none st0
      [.new_notification r1ex, .new_notification r2ex,
       .notification_marked_read 1, .notification_marked_read 1]) := by
  decide

/-- C1 (amended): the unread counter equals the number of non-read entries
after each handled message, provided every `new_notification` carries an
unread record and every `notification_marked_read` targets exactly one
currently-unread local entry; a duplicate or stray
`notification_marked_read` (or a redelivered record) can break the
invariant. -/
theorem C1_amended (isAuthenticated : Bool)
    (fetched : Option (List Notification)) (st : ClientState)
    (msg : WsMessage) (hinv : UnreadInv st) (hadm : Admissible st msg) :
    UnreadInv (handleMessage isAuthenticated fetched st msg) := by
  cases msg with
  | connection_ack =>
    unfold UnreadInv at *
    cases isAuthenticated with
    | false => simp [handleMessage, refreshNotifications, countUnread]
    | true =>
      cases fetched with
      | none => simpa [handleMessage, refreshNotifications] using hinv
      | some l => simp [handleMessage, refreshNotifications]
  | new_notification r =>
    unfold UnreadInv handleMessage at *
    unfold Admissible at hadm
    rw [countUnread_cons_unread r st.notifications hadm]
    push_cast
    omega
  | notification_marked_read nid =>
    unfold UnreadInv handleMessage at *
    unfold Admissible at hadm
    have hsplit := countUnread_markReadById nid st.notifications
    rw [hadm] at hsplit
    have h1 : (1 : Int) ≤ st.unreadCount := by
      rw [hinv]; omega
    rw [max_eq_right (by omega : (0 : Int) ≤ st.unreadCount - 1)]
    rw [hinv]
    push_cast
    omega
  | notifications_all_marked_read =>
    unfold UnreadInv handleMessage at *
    rw [countUnread_setAllRead]
    rfl
  | mark_read_ack => exact hinv
  | pong => exact hinv
  | unknown ty => exact hinv

/-- Witness for `C1_amended` at a concrete input: the invariant holds for
the empty state and is preserved by delivering the unread record `r1ex`. -/
theorem C1_amended_witness :
    UnreadInv (handleMessage true none st0 (.new_notification r1ex)) :=
  C1_amended true none st0 (.new_notification r1ex) (by decide)
    (show r1ex.is_read = false by rfl)

/-- C2 as stated is false: redelivering `new_notification{r1ex}` to a state
that already holds `r1ex` is not a no-op, and delivering the same record
twice from the empty state yields two list entries, not one. -/
theorem C2_counterexample :
    handleMessage true none { notifications := [r1ex], unreadCount := 1 }
        (.new_notification r1ex)
      ≠ { notifications := [r1ex], unreadCount := 1 } ∧
    (runMessages true none st0
        [.new_notification r1ex, .new_notification r1ex]).notifications.length
      ≠ 1 := by
  constructor <;> decide

/-- C2 (amended): `new_notification` performs no dedup: it unconditionally
prepends the record and increments the counter by 1, so delivering the same
record twice produces two list entries and increases the counter by 2 in
total. -/
theorem C2_amended (isAuthenticated : Bool)
    (fetched : Option (List Notification)) (st : ClientState)
    (r : Notification) :
    (handleMessage isAuthenticated fetched st (.new_notification r)).notifications
      = r :: st.notifications ∧
    (handleMessage isAuthenticated fetched
        (handleMessage isAuthenticated fetched st (.new_notification r))
        (.new_notification r)).notifications.length
      = st.notifications.length + 2 ∧
    (handleMessage isAuthenticated fetched
        (handleMessage isAuthenticated fetched st (.new_notification r))
        (.new_notification r)).unreadCount
      = st.unreadCount + 2 := by
  refine ⟨rfl, ?_, ?_⟩
  · simp [handleMessage]
  · simp [handleMessage]
    omega

/-- C3 as stated is false: delivering `notification_marked_read{1}` to a
state whose entry with id 1 is already read leaves the list unchanged but
still decrements the counter from 1 to 0, so the state is not unchanged. -/
theorem C3_counterexample :
    handleMessage true none
        { notifications := [{ r1ex with is_read := true }, r2ex],
          unreadCount := 1 }
        (.notification_marked_read 1)
      ≠ { notifications := [{ r1ex with is_read := true }, r2ex],
          unreadCount := 1 } := by
  decide

/-- C3 (amended): processing `notification_marked_read{nid}` sets
`is_read := true` on every local entry with that id and unconditionally
sets the counter to `max 0 (c - 1)`: when the entry is already read (or
absent) the list is unchanged but the counter still decreases by 1,
floored at 0. -/
theorem C3_amended (isAuthenticated : Bool)
    (fetched : Option (List Notification)) (st : ClientState) (nid : Nat) :
    (∀ n ∈ (handleMessage isAuthenticated fetched st
        (.notification_marked_read nid)).notifications,
      n.id = nid → n.is_read = true) ∧
    ((∀ n ∈ st.notifications, n.id = nid → n.is_read = true) →
      (handleMessage isAuthenticated fetched st
          (.notification_marked_read nid)).notifications = st.notifications) ∧
    (handleMessage isAuthenticated fetched st
        (.notification_marked_read nid)).unreadCount
      = max 0 (st.unreadCount - 1) := by
  refine ⟨markReadById_marks nid st.notifications, ?_, rfl⟩
  intro h
  exact markReadById_eq_self nid st.notifications h

/-- Witness for `C3_amended` at a concrete input: on a state whose only
id-1 entry is already read, the list is unchanged and the counter becomes
`max 0 (1 - 1) = 0`. -/
theorem C3_amended_witness :
    (handleMessage true none
        { notifications := [{ r1ex with is_read := true }], unreadCount := 1 }
        (.notification_marked_read 1)).notifications
      = [{ r1ex with is_read := true }] ∧
    (handleMessage true none
        { notifications := [{ r1ex with is_read := true }], unreadCount := 1 }
        (.notification_marked_read 1)).unreadCount = max 0 (1 - 1) :=
  ⟨(C3_amended true none
      { notifications := [{ r1ex with is_read := true }], unreadCount := 1 }
      1).2.1 (by decide),
   (C3_amended true none
      { notifications := [{ r1ex with is_read := true }], unreadCount := 1 }
      1).2.2⟩

/-- C4: `notifications_all_marked_read` leaves every local entry read and
the counter at 0, from any prior state, and applying it a second time
yields the same state (idempotent). -/
theorem C4_allMarkedRead (isAuthenticated : Bool)
    (fetched : Option (List Notification)) (st : ClientState) :
    (∀ n ∈ (handleMessage isAuthenticated fetched st
        .notifications_all_marked_read).notifications, n.is_read = true) ∧
    (handleMessage isAuthenticated fetched st
        .notifications_all_marked_read).unreadCount = 0 ∧
    handleMessage isAuthenticated fetched
        (handleMessage isAuthenticated fetched st
          .notifications_all_marked_read)
        .notifications_all_marked_read
      = handleMessage isAuthenticated fetched st
          .notifications_all_marked_read := by
  refine ⟨mem_setAllRead_is_read st.notifications, rfl, ?_⟩
  simp [handleMessage, setAllRead_idem]

/-- Witness for `C4_allMarkedRead` at a concrete input (the inner
membership implication discharged at the state holding `r1ex`). -/
theorem C4_allMarkedRead_witness :
    ∀ n ∈ (handleMessage true none
        { notifications := [r1ex], unreadCount := 1 }
        .notifications_all_marked_read).notifications, n.is_read = true :=
  (C4_allMarkedRead true none
    { notifications := [r1ex], unreadCount := 1 }).1

/-- C6: reconnect backoff. (1) the reachability invariant (attempt counter
capped at 5, timer armed only below the cap) is preserved by every event,
so no more than 5 retry attempts are ever made between successful opens;
(2) a transport close while the user is authenticated and the attempt
index `n = reconnectAttempts` is below the cap DOES arm a retry timer,
with delay exactly `2 ^ n * 1000` ms, i.e. `2 ^ n` seconds starting from
1 s and doubling; (3) conversely, whenever `onclose` arms a retry timer,
the user is authenticated, `n` is below 5 and the delay is `2 ^ n * 1000`;
(4) when the armed timer fires, the retry runs with the attempt index
advanced by 1 and the timer disarmed, so `reconnectAttempts` counts
exactly the retries made since the last successful open; (5) `onclose`
always surfaces a disconnected status; (6) after the attempts are
exhausted (counter at 5, no timer armed, disconnected), every further
sequence of close/timer events — i.e. anything short of a new connection
attempt triggered by an authentication event — leaves the state fixed: no
retry is ever scheduled again. -/
theorem C6_reconnectBackoff (isAuthenticated : Bool) (st : WsConnState)
    (hinv : WsInv st) :
    (∀ e, WsInv (wsStep isAuthenticated st e)) ∧
    (isAuthenticated = true → st.reconnectAttempts < maxReconnectAttempts →
      (wsStep isAuthenticated st .transportClose).pendingRetryDelayMs
        = some (2 ^ st.reconnectAttempts * 1000)) ∧
    (∀ d, (wsStep isAuthenticated st .transportClose).pendingRetryDelayMs = some d →
      st.pendingRetryDelayMs = none →
        isAuthenticated = true ∧
        st.reconnectAttempts < maxReconnectAttempts ∧
        d = 2 ^ st.reconnectAttempts * 1000) ∧
    (∀ d, st.pendingRetryDelayMs = some d →
      (wsStep isAuthenticated st .retryTimerFires).reconnectAttempts
          = st.reconnectAttempts + 1 ∧
      (wsStep isAuthenticated st .retryTimerFires).pendingRetryDelayMs = none) ∧
    ((wsStep isAuthenticated st .transportClose).isConnected = false) ∧
    (st.reconnectAttempts = maxReconnectAttempts →
      st.pendingRetryDelayMs = none → st.isConnected = false →
      ∀ evs : List WsEvent, WsEvent.transportOpen ∉ evs →
        runWs isAuthenticated st evs = st) := by
  obtain ⟨hle, harm⟩ := hinv
  refine ⟨?_, ?_, ?_, ?_, ?_, ?_⟩
  · intro e
    cases e with
    | transportClose =>
      by_cases h : isAuthenticated ∧ st.reconnectAttempts < maxReconnectAttempts
      · simp only [wsStep, if_pos h]
        exact ⟨hle, fun _ => h.2⟩
      · simp only [wsStep, if_neg h]
        exact ⟨hle, harm⟩
    | retryTimerFires =>
      cases hp : st.pendingRetryDelayMs with
      | none => simp only [wsStep, hp]; exact ⟨hle, harm⟩
      | some d =>
        simp only [wsStep, hp]
        refine ⟨?_, ?_⟩
        · have := harm (by simp [hp])
          show st.reconnectAttempts + 1 ≤ maxReconnectAttempts
          omega
        · intro h
          exact absurd rfl h
    | transportOpen =>
      refine ⟨?_, ?_⟩
      · simp [wsStep, maxReconnectAttempts]
      · intro h
        exact absurd rfl h
  · intro ha hlt
    have h : isAuthenticated ∧ st.reconnectAttempts < maxReconnectAttempts :=
      ⟨ha, hlt⟩
    simp only [wsStep, if_pos h]
  · intro d hd hnone
    by_cases h : isAuthenticated ∧ st.reconnectAttempts < maxReconnectAttempts
    · simp only [wsStep, if_pos h] at hd
      simp only [Option.some.injEq] at hd
      exact ⟨by simpa using h.1, h.2, hd.symm⟩
    · simp only [wsStep, if_neg h] at hd
      rw [hnone] at hd
      exact absurd hd (by simp)
  · intro d hd
    simp [wsStep, hd]
  · simp only [wsStep]
    split <;> rfl
  · intro hmax hpend hconn evs hopen
    induction evs with
    | nil => rfl
    | cons e evs ih =>
      have he : e ≠ .transportOpen := fun h => hopen (h ▸ List.mem_cons_self e evs)
      have hstep := wsStep_exhausted_fixed isAuthenticated st hmax hpend hconn e he
      simp only [runWs, List.foldl_cons, hstep]
      exact ih fun h => hopen (List.mem_cons_of_mem e h)

/-- Witness for `C6_reconnectBackoff` at a concrete input: the first close
while authenticated (attempt index 0) really arms a retry timer with delay
`2 ^ 0 * 1000` ms; the invariant is preserved by that close; and from the
exhausted disconnected state a close followed by a timer event changes
nothing. -/
theorem C6_reconnectBackoff_witness :
    WsInv (wsStep true ⟨true, 0, none⟩ .transportClose) ∧
    (wsStep true ⟨true, 0, none⟩ .transportClose).pendingRetryDelayMs
      = some (2 ^ 0 * 1000) ∧
    runWs true ⟨false, maxReconnectAttempts, none⟩
      [.transportClose, .retryTimerFires]
      = ⟨false, maxReconnectAttempts, none⟩ :=
  ⟨(C6_reconnectBackoff true ⟨true, 0, none⟩ (by decide)).1 .transportClose,
   (C6_reconnectBackoff true ⟨true, 0, none⟩ (by decide)).2.1 rfl (by decide),
   (C6_reconnectBackoff true ⟨false, maxReconnectAttempts, none⟩
      (by decide)).2.2.2.2.2 rfl rfl rfl
      [.transportClose, .retryTimerFires] (by decide)⟩

/-- C5: processing `connection_ack` when authenticated and the
notification-listing GET succeeds replaces the local list wholesale with
the fetched list (whatever the prior state was) and recomputes the counter
as the number of fetched entries with `is_read = false`. -/
theorem C5_connectionAck (l : List Notification) (st : ClientState) :
    (handleMessage true (some l) st .connection_ack).notifications = l ∧
    (handleMessage true (some l) st .connection_ack).unreadCount
      = ((l.filter fun n => !n.is_read).length : Int) := by
  exact ⟨rfl, rfl⟩

/-- The `onmessage` handler, `useWebSocket.ts` lines 48-56: `JSON.parse`
inside `try`; on success `setLastMessage(message)`, on failure the `catch`
only logs. `parsed = none` models a frame that fails to parse. The handler
never touches the socket, so the connection-open flag is carried through
unchanged in both cases. Returns the new `lastMessage` and the
connection-open flag. -/
def onFrame (parsed : Option WsMessage) (lastMessage : Option WsMessage)
    (connOpen : Bool) : Option WsMessage × Bool :=
  match parsed with
  | none => (lastMessage, connOpen)
  | some m => (some m, connOpen)

/-- C7: a malformed inbound frame (JSON parse failure) is dropped: the
last-message state that feeds the reconciliation layer is unchanged and
the connection stays open; a parsed frame never closes the connection
either; and a recognized-shape message of unknown `type` leaves the whole
reconciliation state unchanged (the `default` branch only logs). -/
theorem C7_malformedAndUnknown (lastMessage : Option WsMessage)
    (connOpen : Bool) (isAuthenticated : Bool)
    (fetched : Option (List Notification)) (st : ClientState) (ty : String) :
    onFrame none lastMessage connOpen = (lastMessage, connOpen) ∧
    (∀ m, (onFrame (some m) lastMessage connOpen).2 = connOpen) ∧
    handleMessage isAuthenticated fetched st (.unknown ty) = st := by
  exact ⟨rfl, fun _ => rfl, rfl⟩

/-- The guard and URL construction of `connect`, `useWebSocket.ts` lines
27-41: bail out when `!isAuthenticated || !token` (JS falsiness: the token
is absent or the empty string) or when the socket is already open;
otherwise open a WebSocket to `url + "?token=" + encodeURIComponent(token)`.
`enc` abstracts `encodeURIComponent`; the result is the URL of the
attempted connection, `none` when no attempt is made. -/
def connectAttempt (isAuthenticated : Bool) (token : Option String)
    (alreadyOpen : Bool) (url : String) (enc : String → String) :
    Option String :=
  match token with
  | none => none
  | some t =>
    if !isAuthenticated || t.isEmpty then none
    else if alreadyOpen then none
    else some (url ++ "?token=" ++ enc t)

/-- C8: with no credential (or unauthenticated) no connection attempt is
made, and every attempted connection carries the bearer credential as the
`token` query parameter of the handshake URL. -/
theorem C8_connectGuard (isAuthenticated : Bool) (token : Option String)
    (alreadyOpen : Bool) (url : String) (enc : String → String) :
    connectAttempt isAuthenticated none alreadyOpen url enc = none ∧
    connectAttempt false token alreadyOpen url enc = none ∧
    (∀ u, connectAttempt isAuthenticated token alreadyOpen url enc = some u →
      isAuthenticated = true ∧
      ∃ t, token = some t ∧ t.isEmpty = false ∧
        u = url ++ "?token=" ++ enc t) := by
  refine ⟨rfl, ?_, ?_⟩
  · cases token with
    | none => rfl
    | some t => simp [connectAttempt]
  · intro u hu
    cases token with
    | none => exact absurd hu (by simp [connectAttempt])
    | some t =>
      cases isAuthenticated with
      | false => exact absurd hu (by simp [connectAttempt])
      | true =>
        by_cases he : t.isEmpty
        · exact absurd hu (by simp [connectAttempt, he])
        · refine ⟨rfl, t, rfl, by simp [he], ?_⟩
          simp only [connectAttempt, he, Bool.not_true] at hu
          simp at hu
          exact hu.2.symm

/-- Witness for `C8_connectGuard` at a concrete input: an authenticated
client with token `tok` attempts exactly the URL with the `token` query
parameter, and a missing credential yields no attempt. -/
theorem C8_connectGuard_witness :
    connectAttempt true none false "ws://localhost:8000/ws/notifications" id
      = none ∧
    (true = true ∧ ∃ t, (some "tok" : Option String) = some t ∧
      t.isEmpty = false ∧
      "ws://localhost:8000/ws/notifications?token=tok"
        = "ws://localhost:8000/ws/notifications" ++ "?token=" ++ id t) :=
  ⟨(C8_connectGuard true (some "tok") false
      "ws://localhost:8000/ws/notifications" id).1,
   (C8_connectGuard true (some "tok") false
      "ws://localhost:8000/ws/notifications" id).2.2
      "ws://localhost:8000/ws/notifications?token=tok" (by decide)⟩

/-- C9: every state-changing operation of the reconciliation layer keeps
the unread counter non-negative: the message handler (increment, floored
decrement, zero, or recomputed count) and both refresh operations (zero,
a fetched count, or unchanged). -/
theorem C9_unreadNonneg (isAuthenticated : Bool)
    (fetched : Option (List Notification)) (serverCount : Option Nat)
    (st : ClientState) (msg : WsMessage) (h : 0 ≤ st.unreadCount) :
    0 ≤ (handleMessage isAuthenticated fetched st msg).unreadCount ∧
    0 ≤ (refreshNotifications isAuthenticated fetched st).unreadCount ∧
    0 ≤ (refreshUnreadCount isAuthenticated serverCount st).unreadCount := by
  have hrefresh :
      0 ≤ (refreshNotifications isAuthenticated fetched st).unreadCount := by
    unfold refreshNotifications
    cases isAuthenticated with
    | false => simp
    | true => cases fetched <;> simp [h]
  refine ⟨?_, hrefresh, ?_⟩
  · cases msg with
    | connection_ack => exact hrefresh
    | new_notification r => show 0 ≤ st.unreadCount + 1; omega
    | notification_marked_read nid =>
      show 0 ≤ max 0 (st.unreadCount - 1); exact le_max_left 0 _
    | notifications_all_marked_read => show (0 : Int) ≤ 0; omega
    | mark_read_ack => exact h
    | pong => exact h
    | unknown ty => exact h
  · unfold refreshUnreadCount
    cases isAuthenticated with
    | false => simp
    | true => cases serverCount <;> simp [h]

/-- Witness for `C9_unreadNonneg` at a concrete input: the counter stays
non-negative when a `notification_marked_read` hits the empty state. -/
theorem C9_unreadNonneg_witness :
    0 ≤ (handleMessage true none st0 (.notification_marked_read 1)).unreadCount :=
  (C9_unreadNonneg true none none st0 (.notification_marked_read 1)
    (by decide)).1

/-- The companion HTTP requests the reconciliation layer can issue, from
`markAsRead` (PUT `/api/v1/notifications/:id/read`) and `markAllAsRead`
(PUT `/api/v1/notifications/mark-all-read`). -/
inductive HttpRequest where
  | putMarkRead (notificationId : Nat)
  | putMarkAllRead
  deriving Repr, DecidableEq

/-- `markAsRead`, `NotificationContext.tsx` lines 84-93: issues the PUT and
returns; there is no `setNotifications`/`setUnreadCount` call on either the
success or the `catch` path (the comment in the source says state updates
happen via the WebSocket message handler), so the client state is returned
unchanged whatever the HTTP outcome. -/
def markAsRead (notificationId : Nat) (_httpSucceeded : Bool)
    (st : ClientState) : ClientState × HttpRequest :=
  (st, .putMarkRead notificationId)

/-- `markAllAsRead`, `NotificationContext.tsx` lines 96-105: same shape as
`markAsRead`, issuing the mark-all-read PUT. -/
def markAllAsRead (_httpSucceeded : Bool) (st : ClientState) :
    ClientState × HttpRequest :=
  (st, .putMarkAllRead)

/-- C10: `markAsRead` and `markAllAsRead` only issue their HTTP request
and never mutate the local list or counter; in particular a failed request
leaves the local cache exactly as a successful one does: unchanged. -/
theorem C10_noLocalMutation (notificationId : Nat) (ok ok2 : Bool)
    (st : ClientState) :
    (markAsRead notificationId ok st).1 = st ∧
    (markAllAsRead ok2 st).1 = st ∧
    (markAsRead notificationId ok st).2 = .putMarkRead notificationId ∧
    (markAllAsRead ok2 st).2 = .putMarkAllRead ∧
    (markAsRead notificationId false st).1 = (markAsRead notificationId true st).1 ∧
    (markAllAsRead false st).1 = (markAllAsRead true st).1 := by
  exact ⟨rfl, rfl, rfl, rfl, rfl, rfl⟩

end GenAI
